import Mathlib

/-!
# Verification of the form-versioning and submission-validation engine

Shallow embedding of the `forms` Django app (models.py, serializers.py,
views.py): form versioning (`Form.create_new_version`), schema compilation
(`_build_schema_json` on the create and update serializers), submission
payload validation (`FormSubmissionCreateSerializer.validate` /
`_validate_field_value`), submission creation
(`FormSubmissionCreateSerializer.create`), the submission lifecycle actions
(`FormSubmissionViewSet.submit` / `review`) and the file-attachment gate
(`FileUploadViewSet.create`).

JSON values flowing through the API (field configs, payload values, schema
documents) are modelled by the inductive type `Json`.  Python numerics are
idealized as exact rationals (`Rat`); every numeric comparison exercised by
the claims is over integers, where `float`/`int`/`Rat` agree.  Python's
`bool` is a subtype of `int`, so `isinstance(value, (int, float))` holds for
booleans and booleans participate in numeric comparisons as 1/0; this is
embedded by `Json.asNum`.
-/

set_option autoImplicit false

namespace Forms

/-- A JSON value as delivered by DRF's `JSONField` (Python side:
`None`, `bool`, `int`/`float`, `str`, `list`, `dict`). -/
inductive Json where
  | null : Json
  | bool (b : Bool) : Json
  | num (q : Rat) : Json
  | str (s : String) : Json
  | arr (elems : List Json) : Json
  | obj (entries : List (String × Json)) : Json
  deriving Repr

namespace Json

/-- Python truthiness of a JSON value (`if x:`): `None`, `False`, `0`,
`""`, `[]`, `{}` are falsy, everything else truthy. -/
def truthy : Json → Bool
  | .null => false
  | .bool b => b
  | .num q => q != 0
  | .str s => s != ""
  | .arr l => !l.isEmpty
  | .obj l => !l.isEmpty

/-- The numeric content of a value for which Python's
`isinstance(value, (int, float))` is true.  Python `bool` is a subclass of
`int` (`True == 1`, `False == 0`), so booleans count as numbers. -/
def asNum : Json → Option Rat
  | .num q => some q
  | .bool b => some (if b then 1 else 0)
  | _ => none

end Json

/-- First-match lookup in an association list; models both Python
`dict.get(key)` on a name-keyed dict and `key in dict` / `dict[key]`
(dict keys are unique, so first match is the match). -/
def lookupStr {α : Type} (k : String) : List (String × α) → Option α
  | [] => none
  | (n, v) :: rest => if n = k then some v else lookupStr k rest

mutual

/-- Python `==` on JSON values, as used by `in` membership tests.
Numbers, booleans and cross-type numeric pairs compare by numeric value
(`1 == True`, `1 == 1.0`); strings by content; lists elementwise.
Python dict equality is key-set based (order-insensitive); options lists
in this code hold scalars, so object entries are compared in order here. -/
def pyEq : Json → Json → Bool
  | .null, .null => true
  | .str s, .str t => s == t
  | .arr xs, .arr ys => pyEqList xs ys
  | .obj xs, .obj ys => pyEqEntries xs ys
  | x, y =>
    match x.asNum, y.asNum with
    | some p, some q => p == q
    | _, _ => false

/-- Elementwise Python `==` on lists. -/
def pyEqList : List Json → List Json → Bool
  | [], [] => true
  | x :: xs, y :: ys => pyEq x y && pyEqList xs ys
  | _, _ => false

/-- Entrywise Python `==` on object entry lists. -/
def pyEqEntries : List (String × Json) → List (String × Json) → Bool
  | [], [] => true
  | (k, x) :: xs, (l, y) :: ys => k == l && pyEq x y && pyEqEntries xs ys
  | _, _ => false

end

/-- Models `FormField.FIELD_TYPES` (models.py): the closed set of field type tags. -/
inductive FieldType where
  | text | textarea | number | email | phone | date
  | select | multiSelect | radio | checkbox | file | multiFile
  deriving Repr, DecidableEq

/-- The wire tag of a field type, as stored in `FormField.field_type`. -/
def FieldType.tag : FieldType → String
  | .text => "text"
  | .textarea => "textarea"
  | .number => "number"
  | .email => "email"
  | .phone => "phone"
  | .date => "date"
  | .select => "select"
  | .multiSelect => "multi_select"
  | .radio => "radio"
  | .checkbox => "checkbox"
  | .file => "file"
  | .multiFile => "multi_file"

/-- A `ValidationRule` row (models.py): rule type tag, JSON config and
error message.  Rows are returned ordered by `created_at`
(`ValidationRule.Meta.ordering`); the `rules` list of a field is kept in
that order. -/
structure ValidationRule where
  rule_type : String
  config : List (String × Json)
  error_message : String
  deriving Repr

/-- A `FormField` row (models.py).  `id` is the UUID rendered as a string
(only ever emitted via `str(field.id)`); `created_at` is an abstract
creation timestamp used by the `['order', 'created_at']` Meta ordering;
`config` is the JSON configuration dict; `rules` holds the field's
`validation_rules` rows in `created_at` order. -/
structure FormField where
  id : String
  name : String
  label : String
  field_type : FieldType
  order : Nat
  created_at : Nat
  config : List (String × Json)
  rules : List ValidationRule
  deriving Repr

/-- The `['order', 'created_at']` Meta ordering key on `FormField`, as a
total boolean "comes no later than" relation. -/
def fieldKeyLe (f g : FormField) : Bool :=
  f.order < g.order || (f.order == g.order && f.created_at ≤ g.created_at)

/-- Stable insertion used by `sortFields`. -/
def insertField (f : FormField) : List FormField → List FormField
  | [] => [f]
  | g :: rest => if fieldKeyLe f g then f :: g :: rest else g :: insertField f rest

/-- Models `version.fields.all()`: the version's field rows sorted by the Meta
ordering `(order, created_at)`.  Stable: rows with equal keys keep their
stored order (the database tie-break is unspecified; creation timestamps
of distinct rows differ in practice). -/
def sortFields : List FormField → List FormField
  | [] => []
  | f :: rest => insertField f (sortFields rest)

/-- A `FormVersion` row (models.py): version number unique per form, and
the frozen `schema_json` document (default `dict`, i.e. `{}`). -/
structure VersionRec where
  version_number : Nat
  schema_json : Json
  deriving Repr

/-- Submission status tags (`FormSubmission.STATUS_CHOICES`). -/
inductive SubStatus where
  | draft | submitted | underReview | approved | rejected
  deriving Repr, DecidableEq

/-- The slice of a `FormSubmission` row the versioning claims look at:
which version it references (by per-form version number) and its status. -/
structure SubmissionRec where
  form_version : Nat
  status : SubStatus
  deriving Repr, DecidableEq

/-- The per-form database state seen by `Form.create_new_version`: the
form's `FormVersion` rows, its `current_version` pointer (a version
number, `NULL` when unset) and the submissions referencing its versions. -/
structure FormState where
  versions : List VersionRec
  current_version : Option Nat
  submissions : List SubmissionRec

/-- Models `self.versions.order_by('-version_number').first()`, projected to the
version number: the highest existing version number, `none` if the form
has no versions. -/
def lastVersionNumber (s : FormState) : Option Nat :=
  maxNum (s.versions.map (·.version_number))
where
  maxNum : List Nat → Option Nat
    | [] => none
    | n :: rest =>
      match maxNum rest with
      | none => some n
      | some m => some (max n m)

/-- Models `Form.create_new_version` (models.py lines 56-69): reads the highest
existing version number, creates a `FormVersion` numbered one higher
(1 if the form has none) with the default empty schema document, points
`current_version` at it, and returns it. -/
def create_new_version (s : FormState) : VersionRec × FormState :=
  let version_number :=
    match lastVersionNumber s with
    | some last => last + 1
    | none => 1
  let new_version : VersionRec := { version_number := version_number, schema_json := .obj [] }
  (new_version,
   { s with
       versions := s.versions ++ [new_version],
       current_version := some version_number })

/-- Runs `k` successive `create_new_version` calls on one form, no other
writers. -/
def iterCreate : Nat → FormState → FormState
  | 0, s => s
  | k + 1, s => (create_new_version (iterCreate k s)).2

/-- The validation errors `FormSubmissionCreateSerializer` can raise, one
constructor per `ValidationError` f-string in serializers.py, each
carrying the interpolated data.  `pyTypeError` stands for a Python
`TypeError` escaping from a comparison against a malformed config value
(not a `ValidationError`; it would surface as a 500). -/
inductive ValErr where
  | requiredMissing (label : String)
  | expectedText (label : String)
  | minLength (label : String) (bound : Json)
  | maxLength (label : String) (bound : Json)
  | expectedNumber (label : String)
  | numBelowMin (label : String) (bound : Json)
  | numAboveMax (label : String) (bound : Json)
  | invalidOption (label : String)
  | expectedList (label : String)
  | invalidOptionElem (label : String) (value : Json)
  | pyTypeError (label : String)
  deriving Repr

/-- The field label named by a validation error (every f-string in
`validate` / `_validate_field_value` starts with the field's label). -/
def ValErr.label : ValErr → String
  | .requiredMissing l => l
  | .expectedText l => l
  | .minLength l _ => l
  | .maxLength l _ => l
  | .expectedNumber l => l
  | .numBelowMin l _ => l
  | .numAboveMax l _ => l
  | .invalidOption l => l
  | .expectedList l => l
  | .invalidOptionElem l _ => l
  | .pyTypeError l => l

/-- Models `field.config.get('required', False)` used in boolean position. -/
def isRequired (f : FormField) : Bool :=
  ((lookupStr "required" f.config).getD (.bool false)).truthy

namespace FormSubmissionCreateSerializer

/-- Models `if min_length and len(value) < min_length` for a string value:
skipped when `config.get('min_length')` is absent or falsy; compares by
numeric value when truthy (Python `bool` counts as 1); a truthy
non-numeric bound makes Python's `<` raise `TypeError`. -/
def textLenLow (label : String) (s : String) (cfg : List (String × Json)) :
    Except ValErr Unit :=
  match lookupStr "min_length" cfg with
  | none => .ok ()
  | some j =>
    if j.truthy then
      match j.asNum with
      | some m => if (s.length : Rat) < m then .error (.minLength label j) else .ok ()
      | none => .error (.pyTypeError label)
    else .ok ()

/-- Models `if max_length and len(value) > max_length`, symmetric to
`textLenLow`. -/
def textLenHigh (label : String) (s : String) (cfg : List (String × Json)) :
    Except ValErr Unit :=
  match lookupStr "max_length" cfg with
  | none => .ok ()
  | some j =>
    if j.truthy then
      match j.asNum with
      | some m => if m < (s.length : Rat) then .error (.maxLength label j) else .ok ()
      | none => .error (.pyTypeError label)
    else .ok ()

/-- The text block of `_validate_field_value`: for `text`, `textarea`,
`email` the value must be a string (`isinstance(value, str)`), then the
optional `min_length` / `max_length` bounds apply.  No-op for other
field types. -/
def checkText (f : FormField) (v : Json) : Except ValErr Unit :=
  if f.field_type = .text ∨ f.field_type = .textarea ∨ f.field_type = .email then
    match v with
    | .str s => do
        textLenLow f.label s f.config
        textLenHigh f.label s f.config
    | _ => .error (.expectedText f.label)
  else .ok ()

/-- Models `if min_value is not None and value < min_value`: skipped when
`config.get('min_value')` is absent or `None`; a non-numeric bound makes
Python's `<` raise `TypeError`. -/
def numLow (label : String) (q : Rat) (cfg : List (String × Json)) :
    Except ValErr Unit :=
  match lookupStr "min_value" cfg with
  | none => .ok ()
  | some .null => .ok ()
  | some j =>
    match j.asNum with
    | some m => if q < m then .error (.numBelowMin label j) else .ok ()
    | none => .error (.pyTypeError label)

/-- Models `if max_value is not None and value > max_value`, symmetric to
`numLow`. -/
def numHigh (label : String) (q : Rat) (cfg : List (String × Json)) :
    Except ValErr Unit :=
  match lookupStr "max_value" cfg with
  | none => .ok ()
  | some .null => .ok ()
  | some j =>
    match j.asNum with
    | some m => if m < q then .error (.numAboveMax label j) else .ok ()
    | none => .error (.pyTypeError label)

/-- The number block of `_validate_field_value`: the value must satisfy
`isinstance(value, (int, float))` — which Python booleans do, `bool`
being a subclass of `int` — then the optional `min_value` / `max_value`
bounds apply to its numeric content.  No-op for other field types. -/
def checkNumber (f : FormField) (v : Json) : Except ValErr Unit :=
  if f.field_type = .number then
    match v.asNum with
    | none => .error (.expectedNumber f.label)
    | some q => do
        numLow f.label q f.config
        numHigh f.label q f.config
  else .ok ()

/-- The select block of `_validate_field_value`: for `select` / `radio`,
`value not in config.get('options', [])` is an error.  A present
non-list `options` makes Python's `in` raise `TypeError` (except the
string/substring corner, never hit by list-valued configs). -/
def checkSelect (f : FormField) (v : Json) : Except ValErr Unit :=
  if f.field_type = .select ∨ f.field_type = .radio then
    match lookupStr "options" f.config with
    | none => .error (.invalidOption f.label)
    | some (.arr options) =>
      if options.any (pyEq v) then .ok () else .error (.invalidOption f.label)
    | some _ => .error (.pyTypeError f.label)
  else .ok ()

/-- The per-element loop of the multi-select block: raises at the first
element not in `options`. -/
def multiSelElems (label : String) (vs options : List Json) : Except ValErr Unit :=
  match vs.find? (fun x => !(options.any (pyEq x))) with
  | some x => .error (.invalidOptionElem label x)
  | none => .ok ()

/-- The multi-select block of `_validate_field_value`: the value must be
a list, and every element must be in `config.get('options', [])`. -/
def checkMultiSelect (f : FormField) (v : Json) : Except ValErr Unit :=
  if f.field_type = .multiSelect then
    match v with
    | .arr vs =>
      match lookupStr "options" f.config with
      | none => multiSelElems f.label vs []
      | some (.arr options) => multiSelElems f.label vs options
      | some _ => .error (.pyTypeError f.label)
    | _ => .error (.expectedList f.label)
  else .ok ()

/-- Models `FormSubmissionCreateSerializer._validate_field_value` (serializers.py
lines 328-391): the four type-tagged check blocks run in source order;
the field's type matches at most one of them, the others are no-ops. -/
def validate_field_value (f : FormField) (v : Json) : Except ValErr Unit := do
  checkText f v
  checkNumber f v
  checkSelect f v
  checkMultiSelect f v

/-- The field loop of `validate`: for each field in order, a required
field absent from the payload is an error; a present field's value goes
through `_validate_field_value`.  Unknown payload keys are ignored. -/
def validateFields : List FormField → List (String × Json) → Except ValErr Unit
  | [], _ => .ok ()
  | f :: rest, responses =>
    if isRequired f && (lookupStr f.name responses).isNone then
      .error (.requiredMissing f.label)
    else
      match lookupStr f.name responses with
      | some v => do
          validate_field_value f v
          validateFields rest responses
      | none => validateFields rest responses

/-- Models `FormSubmissionCreateSerializer.validate` (serializers.py lines
301-326), for a version whose stored field rows are `version_fields`:
the name-keyed dict `{field.name: field for field in
version.fields.all()}` enumerates the fields in Meta order
(`unique_together ['form_version', 'name']` makes names distinct, so the
dict is exactly the ordered row list), and the loop checks each field
against the payload. -/
def validate (version_fields : List FormField) (responses : List (String × Json)) :
    Except ValErr Unit :=
  validateFields (sortFields version_fields) responses

end FormSubmissionCreateSerializer

/-- The mutable columns of a `FormSubmission` row touched by the `submit`
and `review` actions.  User references are ids (`NULL`-able). -/
structure Submission where
  status : SubStatus
  submitted_at : Option Nat
  submitted_by : Option Nat
  reviewed_by : Option Nat
  reviewed_at : Option Nat
  review_notes : String
  deriving Repr, DecidableEq

/-- The error responses of the submission actions in views.py, one
constructor per 4xx branch. -/
inductive ApiErr where
  | permissionDenied
  | onlyDraftCanSubmit
  | invalidStatus
  deriving Repr, DecidableEq

namespace FormSubmissionViewSet

/-- Models `FormSubmissionViewSet.submit` (views.py lines 205-232): owner or
staff only; rejects any submission whose status is not `draft`;
otherwise sets `status = 'submitted'` and `submitted_at = now` and saves.
The notification side effect is external to this model. -/
def submit (sub : Submission) (userId : Nat) (isStaff : Bool) (now : Nat) :
    Except ApiErr Submission :=
  if sub.submitted_by != some userId && !isStaff then
    .error .permissionDenied
  else if sub.status != .draft then
    .error .onlyDraftCanSubmit
  else
    .ok { sub with status := .submitted, submitted_at := some now }

/-- Models `new_status not in ['under_review', 'approved', 'rejected']`: the
requested status decodes iff it is one of the three literal strings
(Python `in` uses `==`; no non-string JSON value equals these strings). -/
def decodeReviewStatus : Json → Option SubStatus
  | .str "under_review" => some .underReview
  | .str "approved" => some .approved
  | .str "rejected" => some .rejected
  | _ => none

/-- Models `FormSubmissionViewSet.review` (views.py lines 234-255): validates
only the *requested* status (`request.data.get('status')`; `.null` also
models an absent key) — the submission's current status is never read —
then assigns status, reviewer, review timestamp and notes and saves. -/
def review (sub : Submission) (reviewerId : Nat) (new_status : Json)
    (review_notes : String) (now : Nat) : Except ApiErr Submission :=
  match decodeReviewStatus new_status with
  | none => .error .invalidStatus
  | some st =>
    .ok { sub with
            status := st,
            reviewed_by := some reviewerId,
            reviewed_at := some now,
            review_notes := review_notes }

end FormSubmissionViewSet

/-- One entry of a field's `validation_rules` list in the schema
document: `{type, config, error_message}`. -/
def ruleEntry (r : ValidationRule) : Json :=
  .obj [("type", .str r.rule_type),
        ("config", .obj r.config),
        ("error_message", .str r.error_message)]

namespace FormCreateSerializer

/-- One field entry of the schema document on the form-creation path:
`{id, name, label, type, order, config, validation_rules}`. -/
def fieldEntry (f : FormField) : Json :=
  .obj [("id", .str f.id),
        ("name", .str f.name),
        ("label", .str f.label),
        ("type", .str f.field_type.tag),
        ("order", .num f.order),
        ("config", .obj f.config),
        ("validation_rules", .arr (f.rules.map ruleEntry))]

/-- Models `FormCreateSerializer._build_schema_json` (serializers.py lines
120-143): `{'fields': [...]}` over `version.fields.all()` — the stored
rows in Meta order `(order, created_at)`. -/
def build_schema_json (stored_fields : List FormField) : Json :=
  .obj [("fields", .arr ((sortFields stored_fields).map fieldEntry))]

end FormCreateSerializer

namespace FormUpdateSerializer

/-- One field entry of the schema document on the form-update path:
`{id, name, label, type, order, config}` — no `validation_rules` key. -/
def fieldEntry (f : FormField) : Json :=
  .obj [("id", .str f.id),
        ("name", .str f.name),
        ("label", .str f.label),
        ("type", .str f.field_type.tag),
        ("order", .num f.order),
        ("config", .obj f.config)]

/-- Models `FormUpdateSerializer._build_schema_json` (serializers.py lines
179-194): `{'fields': [...]}` over `version.fields.all()`; unlike the
creation path, each entry stops at `config`. -/
def build_schema_json (stored_fields : List FormField) : Json :=
  .obj [("fields", .arr ((sortFields stored_fields).map fieldEntry))]

end FormUpdateSerializer

/-- The database writes issued by `FormSubmissionCreateSerializer.create`
(serializers.py lines 393-421), in program order.  The method opens no
transaction (`transaction.atomic` is absent), so under Django's default
autocommit each write commits on its own. -/
inductive WriteOp where
  | insertSubmission (status : String) (submitted_by : Option Nat)
  | updateSubmittedAt (t : Nat)
  | insertResponse (field_name : String) (value : Json)
  deriving Repr

/-- Models `FormSubmissionCreateSerializer.create` as its write sequence: insert
the `FormSubmission` row; if `status == 'submitted'`, a second save
setting `submitted_at`; then one `FieldResponse` insert per payload entry
whose key names a field of the version (unknown keys skipped). -/
def createWrites (version_fields : List FormField) (user : Option Nat)
    (status : String) (responses : List (String × Json)) (now : Nat) :
    List WriteOp :=
  [.insertSubmission status user]
    ++ (if status = "submitted" then [.updateSubmittedAt now] else [])
    ++ responses.filterMap (fun p =>
        if (sortFields version_fields).any (fun f => f.name == p.1) then
          some (.insertResponse p.1 p.2)
        else none)

/-- The observable database slice for one submission: whether its row
exists, its stamped fields, and its `FieldResponse` rows. -/
structure MiniDB where
  submission_exists : Bool
  status : Option String
  submitted_at : Option Nat
  responses : List (String × Json)
  deriving Repr

/-- Effect of one write on the observable state. -/
def applyWrite (db : MiniDB) : WriteOp → MiniDB
  | .insertSubmission st _ => { db with submission_exists := true, status := some st }
  | .updateSubmittedAt t => { db with submitted_at := some t }
  | .insertResponse n v => { db with responses := db.responses ++ [(n, v)] }

/-- State after a sequence of writes. -/
def applyWrites (db : MiniDB) (ops : List WriteOp) : MiniDB :=
  ops.foldl applyWrite db

/-- State before `create` runs. -/
def emptyDB : MiniDB :=
  { submission_exists := false, status := none, submitted_at := none, responses := [] }

/-- With no enclosing transaction, every prefix of the write sequence is
a committed, observable state: the state after the first `k` writes. -/
def observableAfter (ops : List WriteOp) (k : Nat) : MiniDB :=
  applyWrites emptyDB (ops.take k)

/-- The error responses of `FileUploadViewSet.create`, one constructor
per 4xx branch.  `pyTypeError` again stands for a Python runtime error
(`TypeError` / `AttributeError`) out of a malformed config value. -/
inductive UploadErr where
  | permissionDenied
  | fieldNotFileType
  | fileTooLarge (max_size_mb : Rat)
  | fileTypeNotAllowed (accept : String)
  | tooManyFiles (max_files : Rat)
  | pyTypeError
  deriving Repr, DecidableEq

/-- The slice of a `FieldResponse` row the upload gate reads: its field,
the submitting user of its submission, and how many `FileUpload` rows
are already attached (`field_response.files.count()`). -/
structure FieldResponseRow where
  field : FormField
  submission_owner : Option Nat
  files_count : Nat
  deriving Repr

namespace FileUploadViewSet

/-- The `accept` check: `accept.split(',')`, each entry stripped, the
filename must end with some entry after its `*` wildcard segments are
removed (`t.replace('*', '')`). -/
def acceptAllows (accept : String) (file_name : String) : Bool :=
  (accept.splitOn ",").any (fun t => file_name.endsWith ((t.trim).replace "*" ""))

/-- Models `FileUploadViewSet.create` (views.py lines 287-367) after the target
`FieldResponse` row is fetched, as its accept/reject decision.  Checks in
source order: ownership (owner or staff), field type in
`{file, multi_file}`, size against `config.get('max_size_mb', 10)` MB
(× 1024 × 1024 bytes), filename suffix against `config.get('accept', '')`
when truthy, and — for `multi_file` only — the current attached-file
count against `config.get('max_files', 5)`.  On success one `FileUpload`
row is persisted. -/
def upload_create (fr : FieldResponseRow) (userId : Nat) (isStaff : Bool)
    (file_name : String) (file_size : Nat) : Except UploadErr Unit :=
  if fr.submission_owner != some userId && !isStaff then
    .error .permissionDenied
  else if !(fr.field.field_type == .file || fr.field.field_type == .multiFile) then
    .error .fieldNotFileType
  else
    match ((lookupStr "max_size_mb" fr.field.config).getD (.num 10)).asNum with
    | none => .error .pyTypeError
    | some max_size_mb =>
      if (file_size : Rat) > max_size_mb * 1024 * 1024 then
        .error (.fileTooLarge max_size_mb)
      else
        match (lookupStr "accept" fr.field.config).getD (.str "") with
        | .str accept =>
          if accept != "" && !acceptAllows accept file_name then
            .error (.fileTypeNotAllowed accept)
          else checkMaxFiles fr
        | j => if j.truthy then .error .pyTypeError else checkMaxFiles fr
where
  /-- The `multi_file` count gate: reject when
  `current_count >= config.get('max_files', 5)`. -/
  checkMaxFiles (fr : FieldResponseRow) : Except UploadErr Unit :=
    if fr.field.field_type == .multiFile then
      match ((lookupStr "max_files" fr.field.config).getD (.num 5)).asNum with
      | none => .error .pyTypeError
      | some max_files =>
        if (fr.files_count : Rat) ≥ max_files then .error (.tooManyFiles max_files)
        else .ok ()
    else .ok ()

end FileUploadViewSet

/-! ## Concrete fixtures

Rows used by the concrete evaluations below; values follow the spec's
concrete scenario (a `full_name` text field and an `email` field, both
required). -/

/-- A required text field, order 1. -/
def fullNameField : FormField :=
  { id := "f1", name := "full_name", label := "Full Name", field_type := .text,
    order := 1, created_at := 1, config := [("required", .bool true)], rules := [] }

/-- A required email field, order 2. -/
def emailField : FormField :=
  { id := "f2", name := "email", label := "Email", field_type := .email,
    order := 2, created_at := 2, config := [("required", .bool true)], rules := [] }

/-- A number field with no bounds configured. -/
def ageField : FormField :=
  { id := "f3", name := "age", label := "Age", field_type := .number,
    order := 1, created_at := 3, config := [("required", .bool true)], rules := [] }

/-- A number field with `min_value` 2 and `max_value` 10. -/
def scoreField : FormField :=
  { id := "f4", name := "score", label := "Score", field_type := .number,
    order := 1, created_at := 4,
    config := [("min_value", .num 2), ("max_value", .num 10)], rules := [] }

/-- A required date field. -/
def birthdateField : FormField :=
  { id := "f5", name := "birthdate", label := "Birthdate", field_type := .date,
    order := 1, created_at := 5, config := [("required", .bool true)], rules := [] }

/-- A text field carrying one validation rule, order 1. -/
def alphaField : FormField :=
  { id := "fa", name := "alpha", label := "Alpha", field_type := .text,
    order := 1, created_at := 6, config := [],
    rules := [{ rule_type := "min_length", config := [("value", .num 3)],
                error_message := "Too short" }] }

/-- A number field with no rules, order 0 (sorts before `alphaField`). -/
def betaField : FormField :=
  { id := "fb", name := "beta", label := "Beta", field_type := .number,
    order := 0, created_at := 7, config := [("min_value", .num 1)], rules := [] }

/-- A `multi_file` field response row with `max_files` 5, 4 files already
attached. -/
def multiFileRow4 : FieldResponseRow :=
  { field := { id := "f6", name := "docs", label := "Documents", field_type := .multiFile,
               order := 1, created_at := 8, config := [("max_files", .num 5)], rules := [] },
    submission_owner := some 7, files_count := 4 }

/-- Same field as `multiFileRow4` but with 5 files already attached. -/
def multiFileRow5 : FieldResponseRow :=
  { multiFileRow4 with files_count := 5 }

/-- The write sequence of `create` for the spec's concrete scenario:
both fields answered, requested status `submitted`. -/
def scenarioWrites : List WriteOp :=
  createWrites [fullNameField, emailField] (some 7) "submitted"
    [("full_name", .str "John Doe"), ("email", .str "john@example.com")] 100

/-- Boolean success test on a validation outcome. -/
def isOkE {ε α : Type} : Except ε α → Bool
  | .ok _ => true
  | .error _ => false

/-- Every payload value whose key names a field passes
`_validate_field_value` for its field (boolean form, over the stored
field rows). -/
def responsesAllValid (fields : List FormField) (responses : List (String × Json)) : Bool :=
  fields.all fun g =>
    match lookupStr g.name responses with
    | some w => isOkE (FormSubmissionCreateSerializer.validate_field_value g w)
    | none => true

/-- Every required field is present in the payload (boolean form). -/
def requiredPresent (fields : List FormField) (responses : List (String × Json)) : Bool :=
  fields.all fun g => !(isRequired g) || (lookupStr g.name responses).isSome

/-- Every required field other than the named one is present in the
payload (boolean form). -/
def requiredPresentExcept (fname : String) (fields : List FormField)
    (responses : List (String × Json)) : Bool :=
  fields.all fun g => g.name == fname || !(isRequired g) || (lookupStr g.name responses).isSome

/-- Spec-side classifier: a JSON *number* literal, the spec's notion of
"numeric value" in the §4.3 table ("value must be numeric"). -/
def Json.isNumberLit : Json → Bool
  | .num _ => true
  | _ => false

/-! ## Version manager (C1, C2) -/

/-- The version rows of a form after `k` sequential versionings. -/
def versionsUpTo (k : Nat) : List VersionRec :=
  (List.range' 1 k).map fun n => { version_number := n, schema_json := .obj [] }

/-- A form with no versions yet. -/
def emptyFormState : FormState :=
  { versions := [], current_version := none, submissions := [] }

theorem range1_concat (k : Nat) : List.range' 1 (k + 1) = List.range' 1 k ++ [k + 1] := by
  simpa [Nat.add_comm] using @List.range'_concat 1 1 k

theorem maxNum_concat (l : List Nat) (b : Nat) :
    lastVersionNumber.maxNum (l ++ [b]) =
      some (match lastVersionNumber.maxNum l with | none => b | some m => max m b) := by
  induction l with
  | nil => simp [lastVersionNumber.maxNum]
  | cons n l ih =>
    rw [List.cons_append, lastVersionNumber.maxNum, ih, lastVersionNumber.maxNum]
    cases h : lastVersionNumber.maxNum l with
    | none => simp
    | some m => simp [Nat.max_assoc]

theorem maxNum_range1 (k : Nat) :
    lastVersionNumber.maxNum (List.range' 1 k) = if k = 0 then none else some k := by
  induction k with
  | zero => rfl
  | succ k ih =>
    rw [range1_concat, maxNum_concat, ih]
    cases k with
    | zero => simp
    | succ k =>
      simp only [Nat.succ_ne_zero, if_false, if_neg (Nat.succ_ne_zero _)]
      exact congrArg some (Nat.max_eq_right (Nat.le_succ _))

theorem iterCreate_invariant (s0 : FormState) (h : s0.versions = []) (k : Nat) :
    (iterCreate k s0).versions = versionsUpTo k ∧
    (0 < k → (iterCreate k s0).current_version = some k) := by
  induction k with
  | zero => exact ⟨by simpa [iterCreate, versionsUpTo] using h, fun hk => absurd hk (by simp)⟩
  | succ k ih =>
    have hlast : lastVersionNumber (iterCreate k s0) = if k = 0 then none else some k := by
      rw [lastVersionNumber, ih.1, versionsUpTo, List.map_map]
      have : (VersionRec.version_number ∘ fun n =>
          ({ version_number := n, schema_json := .obj [] } : VersionRec)) = id := rfl
      rw [this, List.map_id, maxNum_range1]
    have hnum : (match lastVersionNumber (iterCreate k s0) with
        | some last => last + 1 | none => 1) = k + 1 := by
      rw [hlast]; cases k <;> simp
    constructor
    · show (create_new_version (iterCreate k s0)).2.versions = _
      rw [create_new_version]
      simp only [hnum, ih.1, versionsUpTo, range1_concat, List.map_append]
      rfl
    · intro _
      show (create_new_version (iterCreate k s0)).2.current_version = _
      rw [create_new_version]
      simp only [hnum]

/-- C1: starting from a form with no versions, `N` sequential
`create_new_version` calls produce version numbers exactly `1..N` in
order — no gaps, no reuse — after each call `current_version` is the
version just created, and the next call returns number `N + 1`. -/
theorem create_new_version_sequence (s0 : FormState) (h : s0.versions = []) (k : Nat) :
    (iterCreate k s0).versions.map (·.version_number) = List.range' 1 k ∧
    (0 < k → (iterCreate k s0).current_version = some k) ∧
    (create_new_version (iterCreate k s0)).1.version_number = k + 1 := by
  obtain ⟨hv, hc⟩ := iterCreate_invariant s0 h k
  refine ⟨?_, hc, ?_⟩
  · rw [hv, versionsUpTo, List.map_map]
    exact List.map_id _
  · rw [create_new_version]
    simp only []
    have hlast : lastVersionNumber (iterCreate k s0) = if k = 0 then none else some k := by
      rw [lastVersionNumber, hv, versionsUpTo, List.map_map]
      have : (VersionRec.version_number ∘ fun n =>
          ({ version_number := n, schema_json := .obj [] } : VersionRec)) = id := rfl
      rw [this, List.map_id, maxNum_range1]
    rw [hlast]; cases k <;> simp

/-- Witness for C1 at `N = 3` from an empty form. -/
theorem create_new_version_sequence_witness :
    (iterCreate 3 emptyFormState).versions.map (·.version_number) = [1, 2, 3] ∧
    (iterCreate 3 emptyFormState).current_version = some 3 := by
  have h := create_new_version_sequence emptyFormState rfl 3
  exact ⟨by rw [h.1]; rfl, h.2.1 (by decide)⟩

/-- C2: `create_new_version` only appends a new version row and moves the
pointer: submissions (hence every existing submission's `form_version`
reference) are untouched, and every existing version row keeps its
`version_number` and `schema_json` — past versions are never mutated or
deleted. -/
theorem create_new_version_frame (s : FormState) :
    (create_new_version s).2.submissions = s.submissions ∧
    (create_new_version s).2.versions = s.versions ++ [(create_new_version s).1] ∧
    ∀ v ∈ s.versions, v ∈ (create_new_version s).2.versions :=
  ⟨rfl, rfl, fun _ hv => List.mem_append_left _ hv⟩

/-- Witness for C2: re-versioning a form holding one version and one
submission under it leaves the submission and the old version intact. -/
theorem create_new_version_frame_witness :
    (create_new_version
        { versions := [{ version_number := 1, schema_json := .obj [] }],
          current_version := some 1,
          submissions := [{ form_version := 1, status := .submitted }] }).2.submissions =
      [{ form_version := 1, status := .submitted }] ∧
    ({ version_number := 1, schema_json := .obj [] } : VersionRec) ∈
      (create_new_version
        { versions := [{ version_number := 1, schema_json := .obj [] }],
          current_version := some 1,
          submissions := [{ form_version := 1, status := .submitted }] }).2.versions := by
  have h := create_new_version_frame
    { versions := [{ version_number := 1, schema_json := .obj [] }],
      current_version := some 1,
      submissions := [{ form_version := 1, status := .submitted }] }
  exact ⟨h.1, h.2.2 _ (List.mem_singleton.mpr rfl)⟩

/-! ## Submission lifecycle (C3, C4) -/

/-- C4: for an authorized caller, `submit` succeeds exactly on a `draft`
submission, in which case it only sets `status = submitted` and
`submitted_at = now`; on any non-draft it fails and the row is
untouched. -/
theorem submit_succeeds_iff_draft (sub : Submission) (userId : Nat) (isStaff : Bool)
    (now : Nat) (hperm : sub.submitted_by = some userId ∨ isStaff = true) :
    FormSubmissionViewSet.submit sub userId isStaff now =
      (if sub.status = .draft
       then .ok { sub with status := .submitted, submitted_at := some now }
       else .error .onlyDraftCanSubmit) := by
  rw [FormSubmissionViewSet.submit]
  have hcond : (sub.submitted_by != some userId && !isStaff) = false := by
    rcases hperm with h | h <;> simp [h]
  rw [hcond]
  by_cases hd : sub.status = .draft <;> simp [hd]

/-- Witness for C4: submitting one's own draft stamps it. -/
theorem submit_succeeds_iff_draft_witness :
    FormSubmissionViewSet.submit ⟨.draft, none, some 7, none, none, ""⟩ 7 false 42 =
      .ok ⟨.submitted, some 42, some 7, none, none, ""⟩ ∧
    FormSubmissionViewSet.submit ⟨.approved, some 5, some 7, none, none, ""⟩ 7 false 42 =
      .error .onlyDraftCanSubmit := by
  constructor
  · have h := submit_succeeds_iff_draft ⟨.draft, none, some 7, none, none, ""⟩ 7 false 42
      (Or.inl rfl)
    simpa using h
  · have h := submit_succeeds_iff_draft ⟨.approved, some 5, some 7, none, none, ""⟩ 7 false 42
      (Or.inl rfl)
    simpa using h

/-- C3 counterexample: `review` on an *approved* submission succeeds and
changes it (here to `rejected`), where the claim demands a validation
error leaving the row unchanged — the action never reads the current
status. -/
theorem review_from_approved_succeeds :
    FormSubmissionViewSet.review ⟨.approved, some 5, some 7, some 2, some 6, "ok"⟩
        2 (.str "rejected") "changed" 9 =
      .ok ⟨.rejected, some 5, some 7, some 2, some 9, "changed"⟩ := rfl

/-- C3 amended: `review` validates only the *requested* status: it fails
(leaving the row unchanged) exactly when the request is not one of
`under_review` / `approved` / `rejected`, succeeds from *any* current
status otherwise — including `approved`, `rejected` and `draft` — and
never sets the status to `draft` or `submitted`. -/
theorem review_guards_requested_status_only (sub : Submission) (reviewerId : Nat)
    (new_status : Json) (notes : String) (now : Nat) :
    (∀ st, FormSubmissionViewSet.decodeReviewStatus new_status = some st →
        FormSubmissionViewSet.review sub reviewerId new_status notes now =
          .ok { sub with status := st, reviewed_by := some reviewerId,
                         reviewed_at := some now, review_notes := notes } ∧
        (st = .underReview ∨ st = .approved ∨ st = .rejected)) ∧
    (FormSubmissionViewSet.decodeReviewStatus new_status = none →
        FormSubmissionViewSet.review sub reviewerId new_status notes now =
          .error .invalidStatus) ∧
    (∀ sub', FormSubmissionViewSet.review sub reviewerId new_status notes now = .ok sub' →
        sub'.status ≠ .draft ∧ sub'.status ≠ .submitted) := by
  refine ⟨fun st hst => ?_, fun hnone => ?_, fun sub' hok => ?_⟩
  · constructor
    · rw [FormSubmissionViewSet.review, hst]
    · revert hst
      rw [FormSubmissionViewSet.decodeReviewStatus.eq_def]
      split <;> intro hst <;> simp_all
  · rw [FormSubmissionViewSet.review, hnone]
  · rw [FormSubmissionViewSet.review] at hok
    cases hd : FormSubmissionViewSet.decodeReviewStatus new_status with
    | none => rw [hd] at hok; cases hok
    | some st =>
      rw [hd] at hok
      have hsub : sub'.status = st := by cases hok; rfl
      rw [hsub]
      revert hd
      rw [FormSubmissionViewSet.decodeReviewStatus.eq_def]
      split <;> intro hd <;>
        first
          | (cases hd; exact ⟨by decide, by decide⟩)
          | cases hd

/-- Witness for C3 amended: reviewing an approved submission back to
`under_review` succeeds; an unknown requested status fails. -/
theorem review_guards_requested_status_only_witness :
    FormSubmissionViewSet.review ⟨.approved, some 5, some 7, some 2, some 6, "ok"⟩
        3 (.str "under_review") "re-check" 11 =
      .ok ⟨.underReview, some 5, some 7, some 3, some 11, "re-check"⟩ ∧
    FormSubmissionViewSet.review ⟨.submitted, some 5, some 7, none, none, ""⟩
        3 (.str "draft") "x" 11 = .error .invalidStatus := by
  constructor
  · have h := (review_guards_requested_status_only
      ⟨.approved, some 5, some 7, some 2, some 6, "ok"⟩ 3 (.str "under_review")
      "re-check" 11).1 .underReview rfl
    exact h.1
  · exact (review_guards_requested_status_only
      ⟨.submitted, some 5, some 7, none, none, ""⟩ 3 (.str "draft") "x" 11).2.1 rfl

/-! ## Schema compiler (C7) -/

/-- C7 evaluation at the failing input: for a version holding `betaField`
(order 0) and `alphaField` (order 1, one validation rule), the
form-*creation* path emits entries with all seven keys, fields ordered by
`(order, created_at)` — but the form-*update* path emits the same fields
with only six keys: no `validation_rules` key at all, although
`alphaField` has a rule. -/
theorem update_schema_drops_validation_rules :
    FormCreateSerializer.build_schema_json [alphaField, betaField] =
      .obj [("fields", .arr [
        .obj [("id", .str "fb"), ("name", .str "beta"), ("label", .str "Beta"),
              ("type", .str "number"), ("order", .num ((0 : Nat) : Rat)),
              ("config", .obj [("min_value", .num 1)]),
              ("validation_rules", .arr [])],
        .obj [("id", .str "fa"), ("name", .str "alpha"), ("label", .str "Alpha"),
              ("type", .str "text"), ("order", .num ((1 : Nat) : Rat)),
              ("config", .obj []),
              ("validation_rules", .arr [
                .obj [("type", .str "min_length"),
                      ("config", .obj [("value", .num 3)]),
                      ("error_message", .str "Too short")]])]])] ∧
    FormUpdateSerializer.build_schema_json [alphaField, betaField] =
      .obj [("fields", .arr [
        .obj [("id", .str "fb"), ("name", .str "beta"), ("label", .str "Beta"),
              ("type", .str "number"), ("order", .num ((0 : Nat) : Rat)),
              ("config", .obj [("min_value", .num 1)])],
        .obj [("id", .str "fa"), ("name", .str "alpha"), ("label", .str "Alpha"),
              ("type", .str "text"), ("order", .num ((1 : Nat) : Rat)),
              ("config", .obj [])]])] :=
  ⟨rfl, rfl⟩

/-! ## Submission creation is not atomic (C6) -/

/-- C6 evaluation at the failing input: `create` for the two-field
scenario issues four standalone writes with no enclosing transaction;
after the second write the submission row exists (status stamped) with
*zero* of its field responses — an observable partial submission — while
both responses appear only in the final state. -/
theorem create_partial_state_observable :
    scenarioWrites.length = 4 ∧
    (observableAfter scenarioWrites 2).submission_exists = true ∧
    (observableAfter scenarioWrites 2).responses = [] ∧
    (observableAfter scenarioWrites 4).responses =
      [("full_name", .str "John Doe"), ("email", .str "john@example.com")] :=
  ⟨rfl, rfl, rfl, rfl⟩

/-! ## File attachment gate (C9) -/

/-- C9: for an authorized upload to a `file`/`multi_file` field whose
config resolves `max_size_mb` to `msz`, `max_files` to `mfl` and sets no
`accept` filter: an upload larger than `msz × 1,048,576` bytes is
rejected, and an upload within the size limit on a `multi_file` field is
accepted exactly when the current attached-file count is still below
`mfl` — so the `mfl`-th upload is accepted and the next one rejected. -/
theorem upload_gate_size_and_count (fr : FieldResponseRow) (userId : Nat) (isStaff : Bool)
    (file_name : String) (file_size : Nat) (msz mfl : Rat)
    (hperm : fr.submission_owner = some userId ∨ isStaff = true)
    (hty : fr.field.field_type = .file ∨ fr.field.field_type = .multiFile)
    (hsz : ((lookupStr "max_size_mb" fr.field.config).getD (.num 10)).asNum = some msz)
    (hacc : lookupStr "accept" fr.field.config = none)
    (hmf : ((lookupStr "max_files" fr.field.config).getD (.num 5)).asNum = some mfl) :
    (msz * 1024 * 1024 < (file_size : Rat) →
       FileUploadViewSet.upload_create fr userId isStaff file_name file_size =
         .error (.fileTooLarge msz)) ∧
    (fr.field.field_type = .multiFile → (file_size : Rat) ≤ msz * 1024 * 1024 →
       FileUploadViewSet.upload_create fr userId isStaff file_name file_size =
         (if (fr.files_count : Rat) < mfl then .ok ()
          else .error (.tooManyFiles mfl))) := by
  have hcond : (fr.submission_owner != some userId && !isStaff) = false := by
    rcases hperm with h | h <;> simp [h]
  have htyb : (!(fr.field.field_type == .file || fr.field.field_type == .multiFile)) = false := by
    rcases hty with h | h <;> simp [h]
  constructor
  · intro hbig
    rw [FileUploadViewSet.upload_create, hcond, htyb, hsz]
    simp only [Bool.false_eq_true, if_false]
    rw [if_pos hbig]
  · intro hmulti hsmall
    rw [FileUploadViewSet.upload_create, hcond, htyb, hsz]
    simp only [Bool.false_eq_true, if_false]
    rw [if_neg (by exact not_lt.mpr hsmall), hacc]
    show FileUploadViewSet.upload_create.checkMaxFiles fr = _
    rw [FileUploadViewSet.upload_create.checkMaxFiles, hmulti]
    simp only [beq_self_eq_true, if_true, hmf]
    by_cases hlt : (fr.files_count : Rat) < mfl
    · rw [if_neg (not_le.mpr hlt), if_pos hlt]
    · rw [if_pos (not_lt.mp hlt), if_neg hlt]

/-- Witness for C9 with the default 10 MB size limit and `max_files = 5`:
the 5th file on a 4-file `multi_file` response is accepted, a 6th is
rejected, and a 10 MB + 1 byte upload is rejected. -/
theorem upload_gate_size_and_count_witness :
    FileUploadViewSet.upload_create multiFileRow4 7 false "a.pdf" 100 = .ok () ∧
    FileUploadViewSet.upload_create multiFileRow5 7 false "a.pdf" 100 =
      .error (.tooManyFiles 5) ∧
    FileUploadViewSet.upload_create multiFileRow4 7 false "big.pdf" 10485761 =
      .error (.fileTooLarge 10) := by
  refine ⟨?_, ?_, ?_⟩
  · have h := (upload_gate_size_and_count multiFileRow4 7 false "a.pdf" 100 10 5
      (Or.inl rfl) (Or.inr rfl) rfl rfl rfl).2 rfl (by norm_num)
    rw [h]
    norm_num [multiFileRow4]
  · have h := (upload_gate_size_and_count multiFileRow5 7 false "a.pdf" 100 10 5
      (Or.inl rfl) (Or.inr rfl) rfl rfl rfl).2 rfl (by norm_num)
    rw [h]
    norm_num [multiFileRow5, multiFileRow4]
  · exact (upload_gate_size_and_count multiFileRow4 7 false "big.pdf" 10485761 10 5
      (Or.inl rfl) (Or.inr rfl) rfl rfl rfl).1 (by norm_num)

/-! ## Number-field validation (C8) -/

/-- C8 counterexample: the JSON boolean `true` is not a number, yet
`validate` accepts it for the (required, unbounded) number field `age` —
`isinstance(True, (int, float))` holds in Python because `bool` is a
subclass of `int`. -/
theorem validate_accepts_boolean_for_number_field :
    Json.isNumberLit (.bool true) = false ∧
    FormSubmissionCreateSerializer.validate [ageField] [("age", .bool true)] = .ok () :=
  ⟨rfl, rfl⟩

theorem numLow_spec (label : String) (q : Rat) (cfg : List (String × Json))
    (omin : Option Rat) (hmin : lookupStr "min_value" cfg = omin.map Json.num) :
    FormSubmissionCreateSerializer.numLow label q cfg =
      (if q < omin.getD q
       then .error (.numBelowMin label (.num (omin.getD 0)))
       else .ok ()) := by
  rw [FormSubmissionCreateSerializer.numLow, hmin]
  cases omin with
  | none => simp
  | some m => simp [Json.asNum]

theorem numHigh_spec (label : String) (q : Rat) (cfg : List (String × Json))
    (omax : Option Rat) (hmax : lookupStr "max_value" cfg = omax.map Json.num) :
    FormSubmissionCreateSerializer.numHigh label q cfg =
      (if omax.getD q < q
       then .error (.numAboveMax label (.num (omax.getD 0)))
       else .ok ()) := by
  rw [FormSubmissionCreateSerializer.numHigh, hmax]
  cases omax with
  | none => simp
  | some m => simp [Json.asNum]

theorem checkNumber_spec (f : FormField) (v : Json) (q : Rat) (omin omax : Option Rat)
    (hty : f.field_type = .number) (hv : v.asNum = some q)
    (hmin : lookupStr "min_value" f.config = omin.map Json.num)
    (hmax : lookupStr "max_value" f.config = omax.map Json.num) :
    FormSubmissionCreateSerializer.checkNumber f v =
      (if q < omin.getD q
       then .error (.numBelowMin f.label (.num (omin.getD 0)))
       else if omax.getD q < q
       then .error (.numAboveMax f.label (.num (omax.getD 0)))
       else .ok ()) := by
  rw [FormSubmissionCreateSerializer.checkNumber]
  simp only [hty, if_true]
  rw [hv]
  show (do
      FormSubmissionCreateSerializer.numLow f.label q f.config
      FormSubmissionCreateSerializer.numHigh f.label q f.config) = _
  rw [numLow_spec f.label q f.config omin hmin]
  by_cases h1 : q < omin.getD q
  · simp [h1, Bind.bind, Except.bind]
  · simp only [h1, if_false]
    exact numHigh_spec f.label q f.config omax hmax

/-- C8 amended: for a number field with numeric (or absent) `min_value` /
`max_value` configs, any value Python deems numeric — JSON numbers *and
booleans*, a boolean counting as 1/0 — is checked against the bounds
with strict comparisons, so boundary values are accepted; every other
value is rejected with "Expected number value".  The claim's
"non-numeric values are rejected" fails only for booleans. -/
theorem number_check_treats_bool_as_number (f : FormField) (hty : f.field_type = .number)
    (omin omax : Option Rat)
    (hmin : lookupStr "min_value" f.config = omin.map Json.num)
    (hmax : lookupStr "max_value" f.config = omax.map Json.num) :
    (∀ (v : Json) (q : Rat), v.asNum = some q →
       FormSubmissionCreateSerializer.validate_field_value f v =
         (if q < omin.getD q
          then .error (.numBelowMin f.label (.num (omin.getD 0)))
          else if omax.getD q < q
          then .error (.numAboveMax f.label (.num (omax.getD 0)))
          else .ok ())) ∧
    (∀ v : Json, v.asNum = none →
       FormSubmissionCreateSerializer.validate_field_value f v =
         .error (.expectedNumber f.label)) := by
  have ht : ∀ v, FormSubmissionCreateSerializer.checkText f v = .ok () := by
    intro v; simp [FormSubmissionCreateSerializer.checkText, hty]
  have hs : ∀ v, FormSubmissionCreateSerializer.checkSelect f v = .ok () := by
    intro v; simp [FormSubmissionCreateSerializer.checkSelect, hty]
  have hm : ∀ v, FormSubmissionCreateSerializer.checkMultiSelect f v = .ok () := by
    intro v; simp [FormSubmissionCreateSerializer.checkMultiSelect, hty]
  constructor
  · intro v q hv
    rw [FormSubmissionCreateSerializer.validate_field_value]
    rw [checkNumber_spec f v q omin omax hty hv hmin hmax]
    by_cases h1 : q < omin.getD q
    · simp [ht, h1, Bind.bind, Except.bind]
    · by_cases h2 : omax.getD q < q
      · simp [ht, h1, h2, Bind.bind, Except.bind]
      · simp [ht, hs, hm, h1, h2, Bind.bind, Except.bind]
  · intro v hv
    have hn : FormSubmissionCreateSerializer.checkNumber f v =
        .error (.expectedNumber f.label) := by
      rw [FormSubmissionCreateSerializer.checkNumber]
      simp only [hty, if_true]
      rw [hv]
    rw [FormSubmissionCreateSerializer.validate_field_value]
    simp [ht, hn, Bind.bind, Except.bind]

/-- Witness for C8 amended on `scoreField` (`min_value` 2, `max_value`
10): boundaries 2 and 10 accepted, 1 and 11 rejected with the matching
bound errors, a string rejected as non-numeric. -/
theorem number_check_treats_bool_as_number_witness :
    FormSubmissionCreateSerializer.validate_field_value scoreField (.num 2) = .ok () ∧
    FormSubmissionCreateSerializer.validate_field_value scoreField (.num 10) = .ok () ∧
    FormSubmissionCreateSerializer.validate_field_value scoreField (.num 1) =
      .error (.numBelowMin "Score" (.num 2)) ∧
    FormSubmissionCreateSerializer.validate_field_value scoreField (.num 11) =
      .error (.numAboveMax "Score" (.num 10)) ∧
    FormSubmissionCreateSerializer.validate_field_value scoreField (.str "x") =
      .error (.expectedNumber "Score") := by
  have h := number_check_treats_bool_as_number scoreField rfl (some 2) (some 10) rfl rfl
  refine ⟨?_, ?_, ?_, ?_, h.2 (.str "x") rfl⟩
  · rw [h.1 (.num 2) 2 rfl]; norm_num
  · rw [h.1 (.num 10) 10 rfl]; norm_num
  · rw [h.1 (.num 1) 1 rfl]; norm_num [scoreField]
  · rw [h.1 (.num 11) 11 rfl]; norm_num [scoreField]

/-! ## Required-field enforcement (C5) and unchecked field types (C10) -/

theorem except_ok_bind {ε α β : Type} (a : α) (k : α → Except ε β) :
    ((.ok a : Except ε α) >>= k) = k a := rfl

theorem isOkE_ok {ε : Type} (e : Except ε Unit) (h : isOkE e = true) : e = .ok () := by
  cases e with
  | ok u => cases u; rfl
  | error _ => exact absurd h (by simp [isOkE])

theorem lookupStr_cons_self {α : Type} (k : String) (v : α) (rest : List (String × α)) :
    lookupStr k ((k, v) :: rest) = some v := by
  simp [lookupStr]

theorem lookupStr_cons_ne {α : Type} (k n : String) (v : α) (rest : List (String × α))
    (h : n ≠ k) : lookupStr k ((n, v) :: rest) = lookupStr k rest := by
  simp [lookupStr, h]

theorem insertField_perm (f : FormField) (l : List FormField) :
    (insertField f l).Perm (f :: l) := by
  induction l with
  | nil => exact List.Perm.refl _
  | cons g rest ih =>
    rw [insertField]
    by_cases h : fieldKeyLe f g
    · rw [if_pos h]
    · rw [if_neg h]
      exact (ih.cons g).trans (List.Perm.swap f g rest)

theorem sortFields_perm (l : List FormField) : (sortFields l).Perm l := by
  induction l with
  | nil => exact List.Perm.refl _
  | cons f rest ih => exact (insertField_perm f (sortFields rest)).trans (ih.cons f)

theorem responsesAllValid_spec (fields : List FormField) (responses : List (String × Json))
    (h : responsesAllValid fields responses = true) :
    ∀ g ∈ fields, ∀ w, lookupStr g.name responses = some w →
      FormSubmissionCreateSerializer.validate_field_value g w = .ok () := by
  rw [responsesAllValid, List.all_eq_true] at h
  intro g hg w hw
  have hb := h g hg
  rw [hw] at hb
  exact isOkE_ok _ hb

theorem requiredPresent_spec (fields : List FormField) (responses : List (String × Json))
    (h : requiredPresent fields responses = true) :
    ∀ g ∈ fields, isRequired g = true → (lookupStr g.name responses).isSome = true := by
  rw [requiredPresent, List.all_eq_true] at h
  intro g hg hr
  rcases Bool.or_eq_true_iff.mp (h g hg) with hb | hb
  · rw [hr] at hb; exact absurd hb (by simp)
  · exact hb

theorem requiredPresentExcept_spec (fname : String) (fields : List FormField)
    (responses : List (String × Json)) (h : requiredPresentExcept fname fields responses = true) :
    ∀ g ∈ fields, g.name ≠ fname → isRequired g = true →
      (lookupStr g.name responses).isSome = true := by
  rw [requiredPresentExcept, List.all_eq_true] at h
  intro g hg hn hr
  have hb := h g hg
  rw [Bool.or_assoc] at hb
  rcases Bool.or_eq_true_iff.mp hb with hb' | hb'
  · exact absurd (by simpa using hb') hn
  · rcases Bool.or_eq_true_iff.mp hb' with hb'' | hb''
    · rw [hr] at hb''; exact absurd hb'' (by simp)
    · exact hb''

theorem validateFields_ok (L : List FormField) (responses : List (String × Json))
    (hvalid : ∀ g ∈ L, ∀ w, lookupStr g.name responses = some w →
        FormSubmissionCreateSerializer.validate_field_value g w = .ok ())
    (hreq : ∀ g ∈ L, isRequired g = true → (lookupStr g.name responses).isSome = true) :
    FormSubmissionCreateSerializer.validateFields L responses = .ok () := by
  induction L with
  | nil => rfl
  | cons g rest ih =>
    have ih' := ih (fun x hx => hvalid x (List.mem_cons_of_mem g hx))
      (fun x hx => hreq x (List.mem_cons_of_mem g hx))
    cases hl : lookupStr g.name responses with
    | some w =>
      rw [FormSubmissionCreateSerializer.validateFields, hl]
      simp only [Option.isNone_some, Bool.and_false, Bool.false_eq_true, if_false]
      rw [hvalid g (List.mem_cons_self g rest) w hl, except_ok_bind]
      exact ih'
    | none =>
      have hig : isRequired g = false := by
        cases hig : isRequired g
        · rfl
        · have := hreq g (List.mem_cons_self g rest) hig
          rw [hl] at this
          exact absurd this (by simp)
      rw [FormSubmissionCreateSerializer.validateFields, hl, hig]
      simp only [Bool.false_and, Bool.false_eq_true, if_false]
      exact ih'

theorem validateFields_missing (L : List FormField) (responses : List (String × Json))
    (f : FormField) (hf : f ∈ L)
    (hinj : ∀ g ∈ L, g.name = f.name → g = f)
    (hreqf : isRequired f = true)
    (habs : lookupStr f.name responses = none)
    (hvalid : ∀ g ∈ L, ∀ w, lookupStr g.name responses = some w →
        FormSubmissionCreateSerializer.validate_field_value g w = .ok ())
    (hothers : ∀ g ∈ L, g ≠ f → isRequired g = true →
        (lookupStr g.name responses).isSome = true) :
    FormSubmissionCreateSerializer.validateFields L responses =
      .error (.requiredMissing f.label) := by
  induction L with
  | nil => exact absurd hf (List.not_mem_nil f)
  | cons g rest ih =>
    by_cases hname : g.name = f.name
    · have hgf : g = f := hinj g (List.mem_cons_self g rest) hname
      subst hgf
      rw [FormSubmissionCreateSerializer.validateFields, habs, hreqf]
      simp
    · have hgf : g ≠ f := fun he => hname (he ▸ rfl)
      have hfr : f ∈ rest := by
        rcases List.mem_cons.mp hf with hfg | hfr
        · exact absurd (hfg ▸ rfl) (Ne.symm hname)
        · exact hfr
      have ih' := ih hfr (fun x hx => hinj x (List.mem_cons_of_mem g hx))
        (fun x hx => hvalid x (List.mem_cons_of_mem g hx))
        (fun x hx => hothers x (List.mem_cons_of_mem g hx))
      cases hl : lookupStr g.name responses with
      | some w =>
        rw [FormSubmissionCreateSerializer.validateFields, hl]
        simp only [Option.isNone_some, Bool.and_false, Bool.false_eq_true, if_false]
        rw [hvalid g (List.mem_cons_self g rest) w hl, except_ok_bind]
        exact ih'
      | none =>
        have hig : isRequired g = false := by
          cases hig : isRequired g
          · rfl
          · have := hothers g (List.mem_cons_self g rest) hgf hig
            rw [hl] at this
            exact absurd this (by simp)
        rw [FormSubmissionCreateSerializer.validateFields, hl, hig]
        simp only [Bool.false_and, Bool.false_eq_true, if_false]
        exact ih'

/-- C5: when a required field `f` of the version is absent from the
payload (field names unique per version, as the database enforces; every
present value passing its checks and every *other* required field
present), `validate` fails with the error naming `f`'s label — and the
same payload extended with an entry for `f.name` whose value passes the
field's checks is accepted. -/
theorem validate_missing_required_field (version_fields : List FormField)
    (responses : List (String × Json)) (f : FormField) (v : Json)
    (hf : f ∈ version_fields)
    (hnodup : (version_fields.map (·.name)).Nodup)
    (hreq : isRequired f = true)
    (habsent : lookupStr f.name responses = none)
    (hvalid : responsesAllValid version_fields responses = true)
    (hothers : requiredPresentExcept f.name version_fields responses = true)
    (hv : isOkE (FormSubmissionCreateSerializer.validate_field_value f v) = true) :
    FormSubmissionCreateSerializer.validate version_fields responses =
      .error (.requiredMissing f.label) ∧
    FormSubmissionCreateSerializer.validate version_fields ((f.name, v) :: responses) =
      .ok () := by
  have hperm := sortFields_perm version_fields
  have hmemL : ∀ {g : FormField}, g ∈ sortFields version_fields ↔ g ∈ version_fields :=
    fun {g} => hperm.mem_iff
  have hnodupL : ((sortFields version_fields).map (·.name)).Nodup :=
    ((hperm.map (·.name)).nodup_iff).mpr hnodup
  have hinj : ∀ g ∈ sortFields version_fields, g.name = f.name → g = f := by
    intro g hg hgname
    exact List.inj_on_of_nodup_map hnodupL hg (hmemL.mpr hf) hgname
  have hvalid' := responsesAllValid_spec version_fields responses hvalid
  have hothers' := requiredPresentExcept_spec f.name version_fields responses hothers
  constructor
  · rw [FormSubmissionCreateSerializer.validate]
    exact validateFields_missing (sortFields version_fields) responses f
      (hmemL.mpr hf) hinj hreq habsent
      (fun g hg => hvalid' g (hmemL.mp hg))
      (fun g hg hgf => hothers' g (hmemL.mp hg)
        (fun hn => hgf (hinj g hg hn)))
  · rw [FormSubmissionCreateSerializer.validate]
    apply validateFields_ok
    · intro g hg w hw
      by_cases hname : g.name = f.name
      · have hgf : g = f := hinj g hg hname
        subst hgf
        rw [hname, lookupStr_cons_self] at hw
        cases hw
        exact isOkE_ok _ hv
      · rw [lookupStr_cons_ne _ _ _ _ (fun he => hname he.symm)] at hw
        exact hvalid' g (hmemL.mp hg) w hw
    · intro g hg hr
      by_cases hname : g.name = f.name
      · rw [hname, lookupStr_cons_self]
        rfl
      · rw [lookupStr_cons_ne _ _ _ _ (fun he => hname he.symm)]
        exact hothers' g (hmemL.mp hg) hname hr

/-- Witness for C5 on the spec's concrete scenario: a payload answering
only `full_name` is rejected naming "Email"; adding the `email` entry
makes it validate. -/
theorem validate_missing_required_field_witness :
    FormSubmissionCreateSerializer.validate [fullNameField, emailField]
        [("full_name", .str "John Doe")] = .error (.requiredMissing "Email") ∧
    FormSubmissionCreateSerializer.validate [fullNameField, emailField]
        [("email", .str "john@example.com"), ("full_name", .str "John Doe")] = .ok () := by
  have h := validate_missing_required_field [fullNameField, emailField]
    [("full_name", .str "John Doe")] emailField (.str "john@example.com")
    (List.Mem.tail _ (List.Mem.head _)) (by decide) rfl rfl rfl rfl rfl
  exact ⟨h.1, h.2⟩

/-- C10: for fields typed `date`, `phone`, `checkbox`, `file` or
`multi_file`, `_validate_field_value` accepts *every* JSON value —
including `null` — and `validate` on a version of such fields succeeds
for any payload in which each required field's name merely appears:
required enforcement is key-presence only. -/
theorem unchecked_types_accept_any_value :
    (∀ (f : FormField) (v : Json),
        f.field_type = .date ∨ f.field_type = .phone ∨ f.field_type = .checkbox ∨
          f.field_type = .file ∨ f.field_type = .multiFile →
        FormSubmissionCreateSerializer.validate_field_value f v = .ok ()) ∧
    (∀ (version_fields : List FormField) (responses : List (String × Json)),
        (∀ f ∈ version_fields,
            f.field_type = .date ∨ f.field_type = .phone ∨ f.field_type = .checkbox ∨
              f.field_type = .file ∨ f.field_type = .multiFile) →
        (∀ f ∈ version_fields, isRequired f = true →
            (lookupStr f.name responses).isSome = true) →
        FormSubmissionCreateSerializer.validate version_fields responses = .ok ()) := by
  have part1 : ∀ (f : FormField) (v : Json),
      f.field_type = .date ∨ f.field_type = .phone ∨ f.field_type = .checkbox ∨
        f.field_type = .file ∨ f.field_type = .multiFile →
      FormSubmissionCreateSerializer.validate_field_value f v = .ok () := by
    intro f v hty
    rcases hty with h | h | h | h | h <;>
      simp [FormSubmissionCreateSerializer.validate_field_value,
        FormSubmissionCreateSerializer.checkText,
        FormSubmissionCreateSerializer.checkNumber,
        FormSubmissionCreateSerializer.checkSelect,
        FormSubmissionCreateSerializer.checkMultiSelect, h, except_ok_bind]
  refine ⟨part1, fun version_fields responses hty hreqp => ?_⟩
  rw [FormSubmissionCreateSerializer.validate]
  have hperm := sortFields_perm version_fields
  apply validateFields_ok
  · intro g hg w _
    exact part1 g w (hty g (hperm.mem_iff.mp hg))
  · intro g hg hr
    exact hreqp g (hperm.mem_iff.mp hg) hr

/-- Witness for C10: a required date field accepts a `null` answer —
mere key presence satisfies the required check and no value check runs. -/
theorem unchecked_types_accept_any_value_witness :
    FormSubmissionCreateSerializer.validate [birthdateField] [("birthdate", .null)] =
      .ok () := by
  apply unchecked_types_accept_any_value.2
  · intro f hf
    rcases List.mem_singleton.mp hf with rfl
    exact Or.inl rfl
  · intro f hf _
    rcases List.mem_singleton.mp hf with rfl
    rfl

end Forms
